import Mathlib

/-
Shallow embedding of `src/tweet_bot.py` (guptaryan73/twitter_bot).

Strings are modelled as `List Char` (Python `len` counts code points, as does
`List.length` on `List Char`).  The Unicode-aware Python character classes
(`str.isalnum`, `str.isalpha`, `\w`, `\d`, `\s`) are modelled by their ASCII
restrictions, which agree with Python on every input appearing in the
theorems below.  Recursive string scans use an explicit fuel argument equal
to the length of the scanned list, so that every definition is a structural
recursion the kernel can evaluate.
-/

/-- BotConfig.MAX_RETRIES (tweet_bot.py line 56). -/
def MAX_RETRIES : Nat := 5

/-- BotConfig.RATE_LIMIT_BACKOFF (tweet_bot.py line 55). -/
def RATE_LIMIT_BACKOFF : Nat := 300

/-- BotConfig.CONTENT_SAFETY banned_phrases (tweet_bot.py lines 46-51),
in source order, including the duplicated siren emoji. -/
def bannedPhrases : List (List Char) :=
  [("blown away").toList, ("breaking news").toList, ("exposed").toList,
   ("leaked").toList, ['🚨'], ['😱'], ['💣'], ['🔥'], ['🚨'], ['💥'],
   ("ViralForChange").toList, ("Join me").toList, ("Check out").toList,
   ("Purchase").toList, ("Click here").toList,
   ("The tweet starts with").toList]

/-- BotConfig.CONTENT_SAFETY allowed_emojis (tweet_bot.py line 52). -/
def allowedEmojis : List Char := ['📊', '🔍', '💡', '🌍', '💬', '🌟', '🚀']

/-- BotConfig.MODEL_ENDPOINTS (tweet_bot.py lines 27-31). -/
def MODEL_ENDPOINTS : List (List Char) :=
  [("HuggingFaceH4/zephyr-7b-beta").toList,
   ("mistralai/Mixtral-8x7B-Instruct-v0.1").toList,
   ("google/gemma-7b-it").toList]

/-- Static fallback trend list (tweet_bot.py lines 163 and 166). -/
def FALLBACK_TRENDS : List (List Char) :=
  [("AI").toList, ("Climate").toList, ("Healthcare").toList]

/-- ASCII model of the Python `\s` / `str.split()` / `str.strip()` whitespace. -/
def isPySpace (c : Char) : Bool :=
  c == ' ' || c == '\t' || c == '\n' || c == '\r' || c == '\x0b' || c == '\x0c'

/-- ASCII model of the regex word class `\w`: alphanumerics and underscore. -/
def isWordChar (c : Char) : Bool := c.isAlphanum || c == '_'

/-- Python `str.replace(pat, rep)`: left-to-right, non-overlapping.  Every
pattern used in the source is non-empty.  Fuel-driven so that the kernel can
evaluate it; `listReplace` supplies fuel equal to the string length, which is
always sufficient because each step consumes at least one character. -/
def listReplaceAux (pat rep : List Char) : Nat → List Char → List Char
  | 0, s => s
  | _, [] => []
  | Nat.succ fuel, c :: rest =>
    if !pat.isEmpty && pat.isPrefixOf (c :: rest) then
      rep ++ listReplaceAux pat rep fuel ((c :: rest).drop pat.length)
    else
      c :: listReplaceAux pat rep fuel rest

/-- Python `s.replace(pat, rep)`. -/
def listReplace (pat rep s : List Char) : List Char :=
  listReplaceAux pat rep s.length s

/-- Python `str.strip()`: remove leading and trailing whitespace. -/
def pyStrip (s : List Char) : List Char :=
  ((s.dropWhile isPySpace).reverse.dropWhile isPySpace).reverse

/-- Python `str.split()` with no separator: split on whitespace runs,
dropping empty tokens (tweet_bot.py line 186). -/
def pySplitAux : Nat → List Char → List (List Char)
  | 0, _ => []
  | _, [] => []
  | Nat.succ fuel, c :: rest =>
    if isPySpace c then pySplitAux fuel rest
    else (c :: rest.takeWhile (fun x => !isPySpace x)) ::
         pySplitAux fuel (rest.dropWhile (fun x => !isPySpace x))

/-- Python `s.split()`. -/
def pySplit (s : List Char) : List (List Char) := pySplitAux s.length s

/-- Python word.startswith of the hash character (tweet_bot.py line 186). -/
def startsWithHash (w : List Char) : Bool :=
  match w with
  | '#' :: _ => true
  | _ => false

/-- Case-insensitive literal prefix match, modelling `re.IGNORECASE` on the
ASCII pattern text. -/
def ciStartsWith : List Char → List Char → Bool
  | [], _ => true
  | _ :: _, [] => false
  | p :: ps, c :: cs => (p.toLower == c.toLower) && ciStartsWith ps cs

/-- Scan to the first literal dot, returning the remainder after it; the
regex atom `.` does not cross a newline, and the whole match fails when no
dot is found. -/
def dropToDot : List Char → Option (List Char)
  | [] => none
  | c :: rest =>
    if c == '.' then some rest
    else if c == '\n' then none
    else dropToDot rest

/-- Literal pattern text of the meta-text regex (tweet_bot.py line 175). -/
def metaPat : List Char := ("The tweet starts with").toList

/-- One application of the meta-text removal
`re.sub` of pattern `^The tweet starts with.*?\.\s*` with empty replacement
and IGNORECASE (tweet_bot.py line 175).  Anchored at the start, so at most one match: the
literal prefix, the minimal span up to the first dot, then greedy trailing
whitespace. -/
def stripMetaIntro (s : List Char) : List Char :=
  if ciStartsWith metaPat s then
    match dropToDot (s.drop metaPat.length) with
    | some rest => rest.dropWhile isPySpace
    | none => s
  else s

/-- Length of the maximal run of non-whitespace characters (`\S+` greedy). -/
def nonSpaceRunLen (s : List Char) : Nat :=
  (s.takeWhile (fun c => !isPySpace c)).length

/-- Length matched by `pic\.twitter\.com/\S+` at the head of `s`, or 0. -/
def picMatchLen (s : List Char) : Nat :=
  if (("pic.twitter.com/").toList).isPrefixOf s then
    if nonSpaceRunLen (s.drop 16) > 0 then 16 + nonSpaceRunLen (s.drop 16)
    else 0
  else 0

/-- Length matched by `(https?://\S+|pic\.twitter\.com/\S+)` at the head of
`s`, or 0 when neither alternative matches there. -/
def urlMatchLen (s : List Char) : Nat :=
  if (("https://").toList).isPrefixOf s then
    if nonSpaceRunLen (s.drop 8) > 0 then 8 + nonSpaceRunLen (s.drop 8)
    else picMatchLen s
  else if (("http://").toList).isPrefixOf s then
    if nonSpaceRunLen (s.drop 7) > 0 then 7 + nonSpaceRunLen (s.drop 7)
    else picMatchLen s
  else picMatchLen s

/-- URL removal, the `re.sub` of pattern `(https?://\S+|pic\.twitter\.com/\S+)`
with empty replacement
(tweet_bot.py line 180): leftmost non-overlapping matches are deleted.
A match always consumes at least one character, so string-length fuel
suffices. -/
def removeUrlsAux : Nat → List Char → List Char
  | 0, s => s
  | _, [] => []
  | Nat.succ fuel, c :: rest =>
    let n := urlMatchLen (c :: rest)
    if n == 0 then c :: removeUrlsAux fuel rest
    else removeUrlsAux fuel ((c :: rest).drop n)

/-- URL-removal pass. -/
def removeUrls (s : List Char) : List Char := removeUrlsAux s.length s

/-- Four characters `20dd` at the head of the list. -/
def is20dd : List Char → Bool
  | '2' :: '0' :: d1 :: d2 :: _ => d1.isDigit && d2.isDigit
  | _ => false

/-- Word boundary `\b` after a match: end of string or a non-word char. -/
def boundaryAfter : List Char → Bool
  | [] => true
  | c :: _ => !isWordChar c

/-- Year normalization, the `re.sub` of pattern `\b(20\d\d)\b` with
replacement str(current_year) (tweet_bot.py line
183).  The Bool argument records whether the previous character of the
original string was a word character (`\b` before the match). -/
def yearSubAux (yearStr : List Char) : Nat → Bool → List Char → List Char
  | 0, _, s => s
  | _, _, [] => []
  | Nat.succ fuel, prevW, c :: rest =>
    if !prevW && is20dd (c :: rest) && boundaryAfter (rest.drop 3) then
      yearStr ++ yearSubAux yearStr fuel true (rest.drop 3)
    else
      c :: yearSubAux yearStr fuel (isWordChar c) rest

/-- Year-normalization pass. -/
def yearSub (yearStr s : List Char) : List Char :=
  yearSubAux yearStr s.length false s

/-- Hashtag stripping, the `re.sub` of pattern `(\s+)(#(\w+))` with empty
replacement (tweet_bot.py line 187):
a maximal whitespace run followed by `#` and at least one word character is
deleted; a hashtag not preceded by whitespace is left in place. -/
def removeWsTagsAux : Nat → List Char → List Char
  | 0, s => s
  | _, [] => []
  | Nat.succ fuel, c :: rest =>
    if isPySpace c then
      match rest.dropWhile isPySpace with
      | '#' :: t =>
        let k := (t.takeWhile isWordChar).length
        if k > 0 then removeWsTagsAux fuel (t.drop k)
        else c :: removeWsTagsAux fuel rest
      | _ => c :: removeWsTagsAux fuel rest
    else c :: removeWsTagsAux fuel rest

/-- Whitespace-preceded hashtag removal pass. -/
def removeWsTags (s : List Char) : List Char := removeWsTagsAux s.length s

/-- `list(dict.fromkeys(l))` (tweet_bot.py line 195): deduplicate keeping
the first occurrence, preserving order. -/
def pyDedup (l : List (List Char)) : List (List Char) :=
  l.foldl (fun acc x => if acc.contains x then acc else acc ++ [x]) []

/-- Character predicate of the final filter (tweet_bot.py lines 201-204):
allowed emoji, alphanumeric, space or hash. -/
def allowedFilterChar (c : Char) : Bool :=
  allowedEmojis.contains c || c.isAlphanum || c == ' ' || c == '#'

/-- Python s.rsplit(space, 1)[0] (tweet_bot.py line 206): everything before
the last space, or the whole string when it contains no space. -/
def rsplitFst (s : List Char) : List Char :=
  match s.reverse.dropWhile (fun c => c != ' ') with
  | [] => s
  | _ :: t => t.reverse

/-- Final steps of ContentFormatter.format_tweet (tweet_bot.py lines
201-208): allowed-character filter, 280-character length enforcement with
truncation to the 250-character prefix cut at its last space plus an
ellipsis, and the final strip. -/
def finalizeTweet (t : List Char) : List Char :=
  let t8 := t.filter allowedFilterChar
  let t9 := if t8.length > 280 then rsplitFst (t8.take 250) ++ ['…'] else t8
  pyStrip t9

/-- Steps of ContentFormatter.format_tweet before the final filter
(tweet_bot.py lines 171-198): whitespace and quote normalization and strip,
meta-text removal, banned-phrase deletion in list order, URL removal, year
normalization, hashtag extraction and stripping, canonical trend hashtags,
first-seen deduplication capped at 3, and hashtag append. -/
def buildTweetBody (raw_text trend : List Char) (current_year : Nat) : List Char :=
  let yearStr := (toString current_year).toList
  let t1 := pyStrip (listReplace (['\"']) [] (listReplace (['\n']) ([' ']) raw_text))
  let t2 := stripMetaIntro t1
  let t3 := List.foldl (fun acc p => listReplace p [] acc) t2 bannedPhrases
  let t4 := removeUrls t3
  let t5 := yearSub yearStr t4
  let existing_tags := (pySplit t5).filter startsWithHash
  let t6 := removeWsTags t5
  let trend_clean := listReplace ([' ']) [] trend
  let all_tags :=
    (pyDedup (('#' :: trend_clean) :: (('#' :: trend_clean) ++ yearStr) :: existing_tags)).take 3
  t6 ++ ' ' :: List.intercalate ([' ']) all_tags

/-- ContentFormatter.format_tweet (tweet_bot.py lines 170-208), with the
current calendar year passed explicitly in place of `datetime.now().year`. -/
def format_tweet (raw_text trend : List Char) (current_year : Nat) : List Char :=
  finalizeTweet (buildTweetBody raw_text trend current_year)

/-- Count of whitespace-separated tokens of `s` that begin with `#`. -/
def countHashTokens (s : List Char) : Nat :=
  ((pySplit s).filter startsWithHash).length

/-- Verbatim substring test. -/
def containsSub (pat : List Char) : List Char → Bool
  | [] => pat.isEmpty
  | c :: rest => pat.isPrefixOf (c :: rest) || containsSub pat rest

/-- Python string predicate `t.isdigit()` restricted to ASCII: non-empty and
all digits (tweet_bot.py line 161). -/
def pyIsDigitStr (t : List Char) : Bool := !t.isEmpty && t.all Char.isDigit

/-- Python string predicate `t.isalpha()` restricted to ASCII: non-empty and
all letters (tweet_bot.py line 161). -/
def pyIsAlphaStr (t : List Char) : Bool := !t.isEmpty && t.all Char.isAlpha

/-- Filter applied to upstream trend candidates (tweet_bot.py lines 159-162):
`len(t) > 4 and not t.isdigit() and t.isalpha()`. -/
def trendKeep (t : List Char) : Bool :=
  decide (4 < t.length) && !pyIsDigitStr t && pyIsAlphaStr t

/-- TrendAnalyzer.get_trends (tweet_bot.py lines 155-166).  The upstream
pytrends call is modelled as an `Except` value: `.error` when anything inside
the `try` block raises, `.ok` with the raw candidate list otherwise.  The
`except` clause maps every exception to the static fallback list. -/
def get_trends (upstream : Except (List Char) (List (List Char))) : List (List Char) :=
  match upstream with
  | Except.error _ => FALLBACK_TRENDS
  | Except.ok df =>
    let trends := df.filter trendKeep
    if trends.isEmpty then FALLBACK_TRENDS else trends.take 5

/-- Outcome of one HTTP call to a generation backend (tweet_bot.py lines
134-145): a 403 status, a `requests` exception (timeout, raise_for_status),
any other exception (bad JSON shape), or a parsed JSON payload — a list of
string-keyed objects. -/
inductive HFResponse where
  | denied403 : HFResponse
  | requestError : List Char → HFResponse
  | otherError : List Char → HFResponse
  | httpOk : List (List (List Char × List Char)) → HFResponse

/-- Extraction `result[0].get(generated_text, default).strip()` from the
first payload object (tweet_bot.py line 145). -/
def extractGenerated (obj : List (List Char × List Char)) : List Char :=
  pyStrip ((obj.lookup (("generated_text").toList)).getD [])

/-- Whether a backend call yields a usable result: HTTP success with a
non-empty payload (an empty payload raises IndexError at `result[0]`, caught
by the generic `except` and treated as a per-model failure). -/
def backendSucceeds (r : HFResponse) : Bool :=
  match r with
  | HFResponse.httpOk (_ :: _) => true
  | _ => false

/-- ContentGenerator.generate loop (tweet_bot.py lines 132-151): try each
model of the shuffled candidate list in order; return the first extracted
text; on 403, request error, other error, or empty payload, continue; return
`none` when the list is exhausted. -/
def generate (backend : List Char → HFResponse) : List (List Char) → Option (List Char)
  | [] => none
  | m :: rest =>
    match backend m with
    | HFResponse.httpOk (obj :: _) => some (extractGenerated obj)
    | _ => generate backend rest

/-- Response classes of one `create_tweet` call (tweet_bot.py lines 86-96):
success with an assigned id, `tweepy.TooManyRequests` carrying the
`x-rate-limit-reset` value, `tweepy.Forbidden`, or any other exception. -/
inductive ApiResponse where
  | success : Nat → ApiResponse
  | tooManyRequests : Int → ApiResponse
  | forbidden : ApiResponse
  | otherError : List Char → ApiResponse

/-- Terminal outcome of TwitterClient.post_tweet. -/
inductive PostOutcome where
  | posted : Nat → PostOutcome
  | policyViolation : PostOutcome
  | otherFailure : PostOutcome
  | exhausted : PostOutcome

/-- TwitterClient._handle_rate_limit wait computation (tweet_bot.py lines
100-105): `max(reset - int(time.time()), 0)`; the component then sleeps for
that many seconds and the loop continues. -/
def handle_rate_limit_wait (reset now : Int) : Int := max (reset - now) 0

/-- TwitterClient.post_tweet retry loop (tweet_bot.py lines 82-98).
`responses i` is what the `i`-th `create_tweet` call produces; `remaining` is
`MAX_RETRIES - attempt`, the structural fuel of the `while` loop; the second
component of the result is the final value of `attempt` — every handled path
runs the `finally: attempt += 1`.  The error channel of `Except` models an
exception propagating to the caller; every response class is caught by one of
the three `except` clauses, so it is never used. -/
def post_tweet_go (responses : Nat → ApiResponse) (attempt : Nat) :
    Nat → Except ApiResponse (PostOutcome × Nat)
  | 0 => Except.ok (PostOutcome.exhausted, attempt)
  | Nat.succ remaining =>
    match responses attempt with
    | ApiResponse.success id => Except.ok (PostOutcome.posted id, attempt + 1)
    | ApiResponse.tooManyRequests _ => post_tweet_go responses (attempt + 1) remaining
    | ApiResponse.forbidden => Except.ok (PostOutcome.policyViolation, attempt + 1)
    | ApiResponse.otherError _ => Except.ok (PostOutcome.otherFailure, attempt + 1)

/-- TwitterClient.post_tweet (tweet_bot.py lines 82-98). -/
def post_tweet (responses : Nat → ApiResponse) : Except ApiResponse (PostOutcome × Nat) :=
  post_tweet_go responses 0 MAX_RETRIES

/-- Stripping never lengthens a string. -/
theorem pyStrip_length_le (s : List Char) : (pyStrip s).length ≤ s.length := by
  unfold pyStrip
  calc (((s.dropWhile isPySpace).reverse.dropWhile isPySpace).reverse).length
      = ((s.dropWhile isPySpace).reverse.dropWhile isPySpace).length :=
        List.length_reverse _
    _ ≤ (s.dropWhile isPySpace).reverse.length := (List.dropWhile_sublist _).length_le
    _ = (s.dropWhile isPySpace).length := List.length_reverse _
    _ ≤ s.length := (List.dropWhile_sublist _).length_le

/-- Every character of a stripped string occurs in the original string. -/
theorem mem_of_mem_pyStrip {c : Char} {s : List Char} (h : c ∈ pyStrip s) : c ∈ s := by
  unfold pyStrip at h
  rw [List.mem_reverse] at h
  have h2 := (List.dropWhile_sublist isPySpace).mem h
  rw [List.mem_reverse] at h2
  exact (List.dropWhile_sublist isPySpace).mem h2

/-- The before-last-space part never lengthens a string. -/
theorem rsplitFst_length_le (s : List Char) : (rsplitFst s).length ≤ s.length := by
  unfold rsplitFst
  cases h : s.reverse.dropWhile (fun c => c != ' ') with
  | nil => exact Nat.le_refl _
  | cons a t =>
    have h1 : (s.reverse.dropWhile (fun c => c != ' ')).length ≤ s.reverse.length :=
      (List.dropWhile_sublist _).length_le
    rw [h] at h1
    simp only [List.length_reverse, List.length_cons] at h1 ⊢
    omega

/-- Every character of the before-last-space part occurs in the original. -/
theorem mem_of_mem_rsplitFst {c : Char} {s : List Char} (h : c ∈ rsplitFst s) : c ∈ s := by
  unfold rsplitFst at h
  revert h
  cases hd : s.reverse.dropWhile (fun x => x != ' ') with
  | nil => exact fun h => h
  | cons a t =>
    intro h
    rw [List.mem_reverse] at h
    have h2 : c ∈ a :: t := List.mem_cons_of_mem a h
    rw [← hd] at h2
    have h3 := (List.dropWhile_sublist _).mem h2
    rwa [List.mem_reverse] at h3

/-- Unfolding equation for the final formatting steps. -/
theorem finalizeTweet_eq (t : List Char) :
    finalizeTweet t = pyStrip (if (t.filter allowedFilterChar).length > 280
      then rsplitFst ((t.filter allowedFilterChar).take 250) ++ ['…']
      else t.filter allowedFilterChar) := rfl

/-- The final formatting steps always emit at most 280 characters. -/
theorem finalizeTweet_length_le (t : List Char) : (finalizeTweet t).length ≤ 280 := by
  rw [finalizeTweet_eq]
  by_cases h : (t.filter allowedFilterChar).length > 280
  · rw [if_pos h]
    have h1 := pyStrip_length_le (rsplitFst ((t.filter allowedFilterChar).take 250) ++ ['…'])
    rw [List.length_append] at h1
    have h2 := rsplitFst_length_le ((t.filter allowedFilterChar).take 250)
    have h3 : ((t.filter allowedFilterChar).take 250).length ≤ 250 := by
      rw [List.length_take]
      exact Nat.min_le_left _ _
    simp only [List.length_cons, List.length_nil] at h1
    omega
  · rw [if_neg h]
    have h1 := pyStrip_length_le (t.filter allowedFilterChar)
    omega

/-- Every character the final formatting steps emit either passed the
allowed-character filter or is the appended ellipsis. -/
theorem mem_finalizeTweet {c : Char} {t : List Char} (h : c ∈ finalizeTweet t) :
    allowedFilterChar c = true ∨ c = '…' := by
  rw [finalizeTweet_eq] at h
  have h' := mem_of_mem_pyStrip h
  by_cases hb : (t.filter allowedFilterChar).length > 280
  · rw [if_pos hb] at h'
    rcases List.mem_append.mp h' with h1 | h1
    · have h2 := mem_of_mem_rsplitFst h1
      have h3 := (List.take_sublist _ _).mem h2
      exact Or.inl ((List.mem_filter.mp h3).2)
    · right
      simpa using h1
  · rw [if_neg hb] at h'
    exact Or.inl ((List.mem_filter.mp h').2)

/-- The retry loop always returns through the ok channel, and the final
attempt counter never exceeds the starting counter plus the remaining
loop iterations. -/
theorem post_tweet_go_ok (responses : Nat → ApiResponse) :
    ∀ remaining attempt, ∃ o n,
      post_tweet_go responses attempt remaining = Except.ok (o, n) ∧
      n ≤ attempt + remaining := by
  intro remaining
  induction remaining with
  | zero =>
    intro attempt
    exact ⟨PostOutcome.exhausted, attempt, rfl, by omega⟩
  | succ r ih =>
    intro attempt
    cases hr : responses attempt with
    | success id =>
      refine ⟨PostOutcome.posted id, attempt + 1, ?_, by omega⟩
      simp [post_tweet_go, hr]
    | tooManyRequests reset =>
      obtain ⟨o, n, hgo, hn⟩ := ih (attempt + 1)
      refine ⟨o, n, ?_, by omega⟩
      simp only [post_tweet_go, hr]
      exact hgo
    | forbidden =>
      refine ⟨PostOutcome.policyViolation, attempt + 1, ?_, by omega⟩
      simp [post_tweet_go, hr]
    | otherError msg =>
      refine ⟨PostOutcome.otherFailure, attempt + 1, ?_, by omega⟩
      simp [post_tweet_go, hr]

/-- A Forbidden response reached after a run of rate-limit responses ends
the loop at once with the policy-violation outcome. -/
theorem post_tweet_go_forbidden (responses : Nat → ApiResponse) (a : Nat)
    (hf : responses a = ApiResponse.forbidden) :
    ∀ remaining attempt, attempt + remaining = MAX_RETRIES → attempt ≤ a →
      a < MAX_RETRIES →
      (∀ j, attempt ≤ j → j < a → ∃ r, responses j = ApiResponse.tooManyRequests r) →
      post_tweet_go responses attempt remaining =
        Except.ok (PostOutcome.policyViolation, a + 1) := by
  intro remaining
  induction remaining with
  | zero =>
    intro attempt h5 hle hlt _
    exfalso
    omega
  | succ r ih =>
    intro attempt h5 hle hlt hpre
    by_cases hea : attempt = a
    · subst hea
      simp [post_tweet_go, hf]
    · have hlt2 : attempt < a := Nat.lt_of_le_of_ne hle hea
      obtain ⟨rst, hrst⟩ := hpre attempt (Nat.le_refl _) hlt2
      have hstep : post_tweet_go responses attempt (r + 1) =
          post_tweet_go responses (attempt + 1) r := by
        simp [post_tweet_go, hrst]
      rw [hstep]
      exact ih (attempt + 1) (by omega) (by omega) hlt
        (fun j hj1 hj2 => hpre j (by omega) hj2)

/-- When every reachable response is a rate limit, the loop runs the counter
all the way up and exits with the exhausted outcome. -/
theorem post_tweet_go_all_rate (responses : Nat → ApiResponse)
    (hall : ∀ i, i < MAX_RETRIES → ∃ r, responses i = ApiResponse.tooManyRequests r) :
    ∀ remaining attempt, attempt + remaining = MAX_RETRIES →
      post_tweet_go responses attempt remaining =
        Except.ok (PostOutcome.exhausted, MAX_RETRIES) := by
  intro remaining
  induction remaining with
  | zero =>
    intro attempt h5
    have ha : attempt = MAX_RETRIES := by omega
    subst ha
    rfl
  | succ r ih =>
    intro attempt h5
    obtain ⟨rst, hrst⟩ := hall attempt (by omega)
    have hstep : post_tweet_go responses attempt (r + 1) =
        post_tweet_go responses (attempt + 1) r := by
      simp [post_tweet_go, hrst]
    rw [hstep]
    exact ih (attempt + 1) (by omega)

/-- The generation loop returns none exactly when no tried model yields a
usable response. -/
theorem generate_eq_none_iff (backend : List Char → HFResponse) :
    ∀ l : List (List Char), generate backend l = none ↔
      ∀ m ∈ l, backendSucceeds (backend m) = false := by
  intro l
  induction l with
  | nil => simp [generate]
  | cons m rest ih =>
    cases hb : backend m with
    | denied403 => simp [generate, hb, ih, backendSucceeds]
    | requestError e => simp [generate, hb, ih, backendSucceeds]
    | otherError e => simp [generate, hb, ih, backendSucceeds]
    | httpOk payload =>
      cases payload with
      | nil => simp [generate, hb, ih, backendSucceeds]
      | cons obj rest2 => simp [generate, hb, backendSucceeds]

/-- The generation loop returns the extracted text of the first model whose
call succeeds, regardless of the models listed after it. -/
theorem generate_first_success (backend : List Char → HFResponse) :
    ∀ (pre : List (List Char)) (m : List Char) (post : List (List Char))
      (obj : List (List Char × List Char)) (p2 : List (List (List Char × List Char))),
      (∀ m2 ∈ pre, backendSucceeds (backend m2) = false) →
      backend m = HFResponse.httpOk (obj :: p2) →
      generate backend (pre ++ m :: post) = some (extractGenerated obj) := by
  intro pre
  induction pre with
  | nil =>
    intro m post obj p2 _ hm
    simp [generate, hm]
  | cons p ps ih =>
    intro m post obj p2 hpre hm
    have hp : backendSucceeds (backend p) = false := hpre p (List.mem_cons_self p ps)
    have hstep : generate backend ((p :: ps) ++ m :: post) =
        generate backend (ps ++ m :: post) := by
      cases hb : backend p with
      | denied403 => simp [generate, hb]
      | requestError e => simp [generate, hb]
      | otherError e => simp [generate, hb]
      | httpOk payload =>
        cases payload with
        | nil => simp [generate, hb]
        | cons o r2 =>
          rw [hb] at hp
          simp [backendSucceeds] at hp
    rw [hstep]
    exact ih m post obj p2 (fun m2 hm2 => hpre m2 (List.mem_cons_of_mem p hm2)) hm

set_option maxRecDepth 100000 in
/-- C1: the claim states that for every banned phrase P, raw input and
trend, the output of format_tweet does not contain P as a verbatim
substring.  The code violates it: on the raw input ex!posed the final
allowed-character filter deletes the exclamation mark and the configured
banned phrase exposed appears verbatim in the published output. -/
theorem c1_banned_phrase_survives :
    ("exposed").toList ∈ bannedPhrases ∧
    containsSub (("exposed").toList)
      (format_tweet (("ex!posed").toList) (("AI").toList) 2025) = true := by
  exact ⟨by decide, by decide⟩

/-- C2: for every raw input text, trend and current year, the output of
format_tweet has length at most 280 characters. -/
theorem c2_format_tweet_length_le_280 (raw_text trend : List Char) (current_year : Nat) :
    (format_tweet raw_text trend current_year).length ≤ 280 :=
  finalizeTweet_length_le (buildTweetBody raw_text trend current_year)

set_option maxRecDepth 100000 in
/-- C3: the claim states that the output of format_tweet contains at most 3
whitespace-separated tokens beginning with the hash character.  The code
violates it: a hashtag at position 0 of the cleaned text is extracted but
not stripped, because the stripping regex requires preceding whitespace, so
the input with leading tag #deal yields 4 hash tokens in the output. -/
theorem c3_hashtag_count_exceeds_cap :
    countHashTokens (format_tweet (("#deal now").toList) (("AI").toList) 2025) = 4 := by
  decide

/-- C4: when the i-th create_tweet call raises Forbidden (after rate-limit
responses on all earlier calls), post_tweet returns the policy-violation
outcome at once: the final attempt counter is i + 1, so the text is never
submitted again in that run. -/
theorem c4_forbidden_terminates_immediately (responses : Nat → ApiResponse) (a : Nat)
    (ha : a < MAX_RETRIES) (hf : responses a = ApiResponse.forbidden)
    (hpre : ∀ j, j < a → ∃ r, responses j = ApiResponse.tooManyRequests r) :
    post_tweet responses = Except.ok (PostOutcome.policyViolation, a + 1) :=
  post_tweet_go_forbidden responses a hf MAX_RETRIES 0 (by omega) (Nat.zero_le a) ha
    (fun j _ hj2 => hpre j hj2)

/-- C4 witness: a Forbidden response on the very first attempt ends the run
after exactly one submission. -/
theorem c4_forbidden_witness :
    post_tweet (fun _ => ApiResponse.forbidden) =
      Except.ok (PostOutcome.policyViolation, 1) :=
  c4_forbidden_terminates_immediately (fun _ => ApiResponse.forbidden) 0 (by decide) rfl
    (fun j hj => absurd hj (Nat.not_lt_zero j))

/-- C5: get_trends returns the static fallback list whenever the upstream
trends call raises any exception or yields an empty result; modelling the
caught exception as the error branch of the input makes the function total,
so it never raises to its caller. -/
theorem c5_get_trends_fallback (u : Except (List Char) (List (List Char)))
    (h : (∃ e, u = Except.error e) ∨ u = Except.ok []) :
    get_trends u = FALLBACK_TRENDS := by
  rcases h with ⟨e, he⟩ | he
  · subst he
    rfl
  · subst he
    rfl

/-- C5 witness: an empty upstream result yields the fallback list. -/
theorem c5_get_trends_fallback_witness :
    get_trends (Except.ok []) = FALLBACK_TRENDS :=
  c5_get_trends_fallback (Except.ok []) (Or.inr rfl)

/-- C6: over any shuffled ordering of the configured backends, generate
returns none exactly when every configured backend attempt failed or was
skipped, and on the first successful backend it returns that extracted text
immediately, whatever backends remain after it. -/
theorem c6_generate_exhaustion_and_first_success
    (models : List (List Char)) (backend : List Char → HFResponse)
    (hperm : models.Perm MODEL_ENDPOINTS) :
    (generate backend models = none ↔
      ∀ m ∈ MODEL_ENDPOINTS, backendSucceeds (backend m) = false) ∧
    (∀ (pre : List (List Char)) (m : List Char) (post : List (List Char))
       (obj : List (List Char × List Char)) (p2 : List (List (List Char × List Char))),
      models = pre ++ m :: post →
      (∀ m2 ∈ pre, backendSucceeds (backend m2) = false) →
      backend m = HFResponse.httpOk (obj :: p2) →
      generate backend models = some (extractGenerated obj)) := by
  constructor
  · rw [generate_eq_none_iff backend models]
    constructor
    · intro h m hm
      exact h m (hperm.mem_iff.mpr hm)
    · intro h m hm
      exact h m (hperm.mem_iff.mp hm)
  · intro pre m post obj p2 heq hpre hm
    rw [heq]
    exact generate_first_success backend pre m post obj p2 hpre hm

/-- C6 witness: when every backend is denied with 403, generate returns
none. -/
theorem c6_generate_witness :
    generate (fun _ => HFResponse.denied403) MODEL_ENDPOINTS = none :=
  (c6_generate_exhaustion_and_first_success MODEL_ENDPOINTS
    (fun _ => HFResponse.denied403) (List.Perm.refl _)).1.mpr (fun _ _ => rfl)

/-- C7: for every sequence of posting-API responses among the handled
classes, post_tweet returns through the ok channel — no exception
propagates to the caller, and exhausting all attempts is an ordinary
return. -/
theorem c7_post_tweet_no_exception (responses : Nat → ApiResponse) :
    ∃ o n, post_tweet responses = Except.ok (o, n) := by
  obtain ⟨o, n, h, _⟩ := post_tweet_go_ok responses MAX_RETRIES 0
  exact ⟨o, n, h⟩

set_option maxRecDepth 100000 in
/-- C8 counterexample: the claim states that every output character is a
letter or digit, space, hash, or an allowed emoji.  The code violates it:
truncation appends the ellipsis character after the allowed-character
filter has run, so a long input produces an output containing the ellipsis,
which the filter predicate rejects. -/
theorem c8_ellipsis_counterexample :
    '…' ∈ format_tweet (List.replicate 290 'a') (("AI").toList) 2025 ∧
    allowedFilterChar '…' = false := by
  exact ⟨by decide, by decide⟩

/-- C8 amended: every character of the output of format_tweet is a letter
or digit, the space character, the hash character, or one of the configured
allowed emoji glyphs — or the ellipsis character appended by truncation. -/
theorem c8_allowed_chars_amended (raw_text trend : List Char) (current_year : Nat)
    (c : Char) (hc : c ∈ format_tweet raw_text trend current_year) :
    allowedFilterChar c = true ∨ c = '…' :=
  mem_finalizeTweet hc

set_option maxRecDepth 10000 in
/-- C8 witness: the letter h occurs in a concrete output and satisfies the
amended character property. -/
theorem c8_allowed_chars_witness :
    'h' ∈ format_tweet (("hello").toList) (("AI").toList) 2025 ∧
    (allowedFilterChar 'h' = true ∨ 'h' = '…') :=
  ⟨by decide, c8_allowed_chars_amended (("hello").toList) (("AI").toList) 2025 'h' (by decide)⟩

/-- C9: post_tweet performs at most MAX_RETRIES = 5 submission attempts and
always terminates; the attempt counter rises on every loop iteration,
including the rate-limit path, so a run of nothing but rate-limit responses
exits with the counter at exactly MAX_RETRIES. -/
theorem c9_attempts_bounded (responses : Nat → ApiResponse) :
    (∃ o n, post_tweet responses = Except.ok (o, n) ∧ n ≤ MAX_RETRIES) ∧
    ((∀ i, i < MAX_RETRIES → ∃ r, responses i = ApiResponse.tooManyRequests r) →
      post_tweet responses = Except.ok (PostOutcome.exhausted, MAX_RETRIES)) := by
  constructor
  · obtain ⟨o, n, h, hn⟩ := post_tweet_go_ok responses MAX_RETRIES 0
    exact ⟨o, n, h, by omega⟩
  · intro hall
    exact post_tweet_go_all_rate responses hall MAX_RETRIES 0 (by omega)

/-- C9 witness: five straight rate-limit responses exhaust the attempts with
the counter at MAX_RETRIES. -/
theorem c9_attempts_witness :
    post_tweet (fun _ => ApiResponse.tooManyRequests 0) =
      Except.ok (PostOutcome.exhausted, MAX_RETRIES) :=
  (c9_attempts_bounded (fun _ => ApiResponse.tooManyRequests 0)).2 (fun _ _ => ⟨0, rfl⟩)

/-- C10: for every upstream result list, get_trends returns a non-empty
list of at most 5 entries, and when the length/numeric/alphabetic filter
eliminates every candidate the static fallback list is returned even though
the upstream call succeeded. -/
theorem c10_get_trends_nonempty_bounded (l : List (List Char)) :
    get_trends (Except.ok l) ≠ [] ∧ (get_trends (Except.ok l)).length ≤ 5 ∧
    (l.filter trendKeep = [] → get_trends (Except.ok l) = FALLBACK_TRENDS) := by
  have heq : get_trends (Except.ok l) =
      if (l.filter trendKeep).isEmpty then FALLBACK_TRENDS
      else (l.filter trendKeep).take 5 := rfl
  rw [heq]
  by_cases he : (l.filter trendKeep).isEmpty
  · rw [if_pos he]
    exact ⟨by simp [FALLBACK_TRENDS], by simp [FALLBACK_TRENDS], fun _ => rfl⟩
  · rw [if_neg he]
    refine ⟨?_, ?_, ?_⟩
    · cases hf : l.filter trendKeep with
      | nil =>
        rw [hf] at he
        simp at he
      | cons a t =>
        simp
    · rw [List.length_take]
      exact Nat.min_le_left _ _
    · intro hnil
      rw [hnil] at he
      simp at he

/-- C10 witness: an upstream list whose single candidate fails the filter
yields the fallback list. -/
theorem c10_get_trends_witness :
    get_trends (Except.ok [("x").toList]) = FALLBACK_TRENDS :=
  (c10_get_trends_nonempty_bounded [("x").toList]).2.2 (by decide)
